import Mathlib

/-!
Shallow embedding of `src/main.py` (Stock-Scraper-Analyser).

Time model: absolute time is measured in minutes on a single UTC axis
(`Int`).  `nyOff` is the America/New_York offset, so that a New York
wall-clock reading `w` denotes the absolute instant `w - nyOff`
(NY wall = UTC + nyOff).  A pandas timestamp is either timezone-aware
(carrying its absolute UTC value) or naive (carrying a NY wall-clock
value); `tz_localize` of a naive value to New York therefore yields the
absolute instant `w - nyOff`.  Dividend index entries are modelled by
their NY-local day number (what `strftime` of the index timestamp
renders), together with the cash amount as a rational.

Upstream behaviour (yfinance) is an explicit environment `Env`:
each facet fetch either throws (`Except.error`) or returns its data,
and `tickerThrows` models `yf.Ticker` itself raising, which is only
caught by the top-level handler of `get_stock_info`.
-/

/-- A pandas timestamp: timezone-aware (absolute UTC minutes) or
timezone-naive (New York wall-clock minutes). -/
inductive TS where
  | aware (u : Int)
  | naive (w : Int)
deriving DecidableEq

/-- The absolute UTC instant of a timestamp, localizing naive values to
America/New_York first (mirrors `tz_localize(ny_tz).tz_convert(UTC)` and
`astimezone(pytz.UTC)` in lines 95-105 of `main.py`). -/
def TS.toUTC (nyOff : Int) : TS → Int
  | .aware u => u
  | .naive w => w - nyOff

/-- The wall-clock value a timestamp renders under `strftime` (an aware
timestamp prints in its own zone, a naive one prints as is). -/
def TS.wall : TS → Int
  | .aware u => u
  | .naive w => w

/-- The result of `ticker.info`: the fields of the profile mapping that
`get_stock_info` reads; any may be absent. -/
structure Info where
  shortName : Option String := none
  regularMarketPrice : Option Rat := none
  currentPrice : Option Rat := none

/-- The result of `ticker.earnings_dates`: a time-indexed table whose
index is either wholly timezone-aware (absolute UTC values) or wholly
naive (NY wall-clock values). -/
structure EarningsTable where
  awareIdx : Bool
  dates : List Int
deriving DecidableEq

/-- The upstream world a single `get_stock_info` call observes. -/
structure Env where
  nyOff : Int
  now : Int
  tickerThrows : Bool
  infoFetch : Except Unit Info
  calendarFetch : Except Unit (Option TS)
  earningsFetch : Except Unit (Option EarningsTable)
  dividendsFetch : Except Unit (List (Int × Rat))

/-- Lines 30-35: `info = ticker.info`, degraded to an empty mapping when
the fetch throws. -/
def getInfo (env : Env) : Info :=
  match env.infoFetch with
  | .ok i => i
  | .error _ => {}

/-- Line 32: `info.get('shortName', 'N/A')`, with the fetch-failure
default of line 23. -/
def companyName (env : Env) : String :=
  match env.infoFetch with
  | .ok i => i.shortName.getD "N/A"
  | .error _ => "N/A"

/-- Lines 40-45 (method 1): the calendar source; `none` when the fetch
throws, is not a DataFrame, or has no "Earnings Date" row; otherwise the
first value of that row. -/
def calendarEarnings (env : Env) : Option TS :=
  match env.calendarFetch with
  | .ok c => c
  | .error _ => none

/-- Lines 54-62: the boolean-mask filter keeping index entries strictly
after now, comparing absolute instants (naive entries are localized to
New York first). -/
def futureEarningsDates (env : Env) (tbl : EarningsTable) : List Int :=
  if tbl.awareIdx then
    tbl.dates.filter (fun u => decide (env.now < u))
  else
    tbl.dates.filter (fun w => decide (env.now < w - env.nyOff))

/-- Lines 48-65 (method 2): the time-indexed earnings source; takes
`future_dates.index[0]`, the first surviving index entry, which keeps the
naive/aware status of the original index. -/
def earningsFromTable (env : Env) : Option TS :=
  match env.earningsFetch with
  | .error _ => none
  | .ok none => none
  | .ok (some tbl) =>
    if tbl.dates.isEmpty then none
    else
      match (futureEarningsDates env tbl).head? with
      | none => none
      | some t => some (if tbl.awareIdx then TS.aware t else TS.naive t)

/-- Lines 38-67: earnings-date resolution, method 1 first, method 2 only
if method 1 yielded nothing; every failure is swallowed. -/
def resolveEarnings (env : Env) : Option TS :=
  match calendarEarnings env with
  | some e => some e
  | none => earningsFromTable env

/-- Sum of the cash amounts of a dividend series. -/
def divSum (ds : List (Int × Rat)) : Rat :=
  (ds.map Prod.snd).sum

/-- Line 78: `recent_dividends.head(4).sum()` when at least 4 entries
exist (the FIRST four index entries), otherwise
`recent_dividends.sum() * (4 / len(recent_dividends))`. -/
def annualDivRate (ds : List (Int × Rat)) : Rat :=
  if 4 ≤ ds.length then divSum (ds.take 4)
  else divSum ds * (4 / (ds.length : Rat))

/-- Line 79: `info.get('regularMarketPrice', info.get('currentPrice'))`:
the regular market price, falling back to the current price. -/
def latestPrice (i : Info) : Option Rat :=
  match i.regularMarketPrice with
  | some p => some p
  | none => i.currentPrice

/-- Lines 70-81: the annual dividend yield value, left unset when the
dividend fetch throws, the history is empty, no price field resolves, or
the resolved price is 0 (Python falsiness of `if latest_price:`). -/
def annualDividendYield (env : Env) : Option Rat :=
  match env.dividendsFetch with
  | .error _ => none
  | .ok ds =>
    if ds.isEmpty then none
    else
      match latestPrice (getInfo env) with
      | none => none
      | some p => if p = 0 then none else some (annualDivRate ds / p * 100)

/-- Lines 25, 74-75, 87-88: the dividend-offered flag; stays "No" both on
an empty history and when the dividend fetch throws. -/
def dividendOffered (env : Env) : String :=
  match env.dividendsFetch with
  | .error _ => "No"
  | .ok ds => if ds.isEmpty then "No" else "Yes"

/-- Lines 83-85: the ex-dividend date, the (NY-local) day of the last
index entry of a non-empty history. -/
def exDivDateRaw (env : Env) : Option Int :=
  match env.dividendsFetch with
  | .error _ => none
  | .ok ds => if ds.isEmpty then none else (ds.getLast?).map Prod.fst

/-- Minutes in a day. -/
def minutesPerDay : Int := 1440

/-- Lines 92-93: `current_date + timedelta(days=180)` on the absolute
axis. -/
def maxFutureUTC (env : Env) : Int :=
  env.now + 180 * minutesPerDay

/-- Lines 95-105: the resolved earnings date is discarded when its
absolute instant is strictly later than now + 180 days. -/
def filteredEarnings (env : Env) : Option TS :=
  match resolveEarnings env with
  | none => none
  | some e => if maxFutureUTC env < e.toUTC env.nyOff then none else some e

/-- Lines 109-110: the parsed ex-dividend date as an absolute instant
(midnight of that day, localized to New York). -/
def exDivAbs (env : Env) (d : Int) : Int :=
  d * minutesPerDay - env.nyOff

/-- Lines 107-114: the ex-dividend date is discarded when its midnight,
NY-localized, is strictly later than now + 180 days. -/
def filteredExDiv (env : Env) : Option Int :=
  match exDivDateRaw env with
  | none => none
  | some d => if maxFutureUTC env < exDivAbs env d then none else some d

/-- Abstraction of `strftime('%Y-%m-%d')` on a timestamp: the day number
of its wall-clock reading, rendered as a string. -/
def dayString (t : TS) : String :=
  toString (Int.fdiv t.wall minutesPerDay)

/-- Two-decimal rendering of a rational, modelling `f"{y:.2f}"`:
round-to-nearest of 100·q, printed with two fractional digits. -/
def fmt2 (q : Rat) : String :=
  let n : Int := Int.fdiv (200 * q.num + (q.den : Int)) (2 * (q.den : Int))
  let sign := if n < 0 then "-" else ""
  let m := n.natAbs
  let fp := m % 100
  let fps := if fp < 10 then "0" ++ toString fp else toString fp
  sign ++ toString (m / 100) ++ "." ++ fps

/-- Line 119: the "Next Earnings Report Date" field. -/
def earningsField (env : Env) : String :=
  match filteredEarnings env with
  | some t => dayString t
  | none => "N/A"

/-- Line 121: the "Ex-Dividend Date" field. -/
def exDivField (env : Env) : String :=
  match filteredExDiv env with
  | some d => toString d
  | none => "N/A"

/-- Line 122: the "Annual Dividend Yield" field; `if annual_dividend_yield`
is falsy both for an unset yield and for a yield of exactly 0. -/
def yieldField (env : Env) : String :=
  match annualDividendYield env with
  | none => "N/A"
  | some v => if v = 0 then "N/A" else fmt2 v ++ "%"

/-- Lines 116-123: the normally assembled record. -/
def recordFields (env : Env) (sym : String) : List (String × String) :=
  [("Stock Symbol", sym),
   ("Company Name", companyName env),
   ("Next Earnings Report Date", earningsField env),
   ("Dividend Offered", dividendOffered env),
   ("Ex-Dividend Date", exDivField env),
   ("Annual Dividend Yield", yieldField env)]

/-- Lines 125-134: the all-sentinel record returned when an unexpected
error reaches the top-level handler. -/
def fallbackRecord (sym : String) : List (String × String) :=
  [("Stock Symbol", sym),
   ("Company Name", "N/A"),
   ("Next Earnings Report Date", "N/A"),
   ("Dividend Offered", "N/A"),
   ("Ex-Dividend Date", "N/A"),
   ("Annual Dividend Yield", "N/A")]

/-- Lines 8-134: `get_stock_info`, total over every upstream behaviour. -/
def get_stock_info (env : Env) (sym : String) : List (String × String) :=
  if env.tickerThrows then fallbackRecord sym else recordFields env sym

/-- Lines 144-151 of `main`: collect, in processing order, the records of
the per-symbol calls that did not raise. -/
def collectRecords (outcomes : List (Except String (List (String × String)))) :
    List (List (String × String)) :=
  outcomes.filterMap (fun o => match o with | .ok r => some r | .error _ => none)

/-- The observable outcome of one run of `main`: the rows written (if a
file was written) and the final console message. -/
structure BatchResult where
  outFile : Option (List (List (String × String)))
  message : String
deriving DecidableEq

/-- Lines 153-161 of `main`: write the collected records in order, or
skip the write and report that no data was gathered. -/
def runBatch (outcomes : List (Except String (List (String × String)))) :
    BatchResult :=
  let results := collectRecords outcomes
  if results.isEmpty then { outFile := none, message := "No data was collected" }
  else { outFile := some results, message := "Data saved to stock_data.csv" }

/-! Concrete environments used by the theorems below. -/

/-- A benign environment: nothing throws, every facet is empty. -/
def okEnv : Env :=
  { nyOff := 0, now := 0, tickerThrows := false,
    infoFetch := .ok {}, calendarFetch := .ok none, earningsFetch := .ok none,
    dividendsFetch := .ok [] }

/-- A profile carrying both price fields, with different values. -/
def c2Info : Info :=
  { shortName := none, regularMarketPrice := some 100, currentPrice := some 50 }

/-- Environment whose profile carries both price fields. -/
def c2EnvA : Env :=
  { nyOff := 0, now := 0, tickerThrows := false,
    infoFetch := .ok c2Info, calendarFetch := .ok none, earningsFetch := .ok none,
    dividendsFetch := .ok [] }

/-- Environment with a non-empty dividend history but no price field. -/
def c2EnvB : Env :=
  { nyOff := 0, now := 0, tickerThrows := false,
    infoFetch := .ok {}, calendarFetch := .ok none, earningsFetch := .ok none,
    dividendsFetch := .ok [(1, 1)] }

/-- Environment in which `yf.Ticker` itself raises, reaching the
top-level handler. -/
def c3Env : Env :=
  { nyOff := 0, now := 0, tickerThrows := true,
    infoFetch := .error (), calendarFetch := .error (), earningsFetch := .error (),
    dividendsFetch := .error () }

/-- Environment whose earnings date and ex-dividend day both lie far more
than 180 days in the future (now = 0, NY offset -300 minutes). -/
def c5Env : Env :=
  { nyOff := -300, now := 0, tickerThrows := false,
    infoFetch := .ok {}, calendarFetch := .ok (some (TS.aware 1000000)),
    earningsFetch := .ok none,
    dividendsFetch := .ok [(400, 1)] }

/-- Environment with an empty calendar and a time-indexed earnings source
listing two future dates in descending order. -/
def c6Env : Env :=
  { nyOff := 0, now := 0, tickerThrows := false,
    infoFetch := .ok {}, calendarFetch := .ok none,
    earningsFetch := .ok (some { awareIdx := true, dates := [200, 100] }),
    dividendsFetch := .ok [] }

/-- Environment whose calendar source carries an earnings value. -/
def c6EnvCal : Env :=
  { nyOff := 0, now := 0, tickerThrows := false,
    infoFetch := .ok {}, calendarFetch := .ok (some (TS.naive 7)),
    earningsFetch := .error (), dividendsFetch := .ok [] }

/-- The spec scenario of C7: profile fetch throws, two payments of 0.50. -/
def c7Env : Env :=
  { nyOff := 0, now := 0, tickerThrows := false,
    infoFetch := .error (), calendarFetch := .ok none, earningsFetch := .ok none,
    dividendsFetch := .ok [(10, (1:Rat)/2), (20, (1:Rat)/2)] }

/-- Environment in which all three facet fetches throw. -/
def c8Env : Env :=
  { nyOff := 0, now := 0, tickerThrows := false,
    infoFetch := .error (), calendarFetch := .error (), earningsFetch := .error (),
    dividendsFetch := .error () }

/-- Environment with a resolved price of 100 and a single zero-amount
dividend payment. -/
def c10Env : Env :=
  { nyOff := 0, now := 0, tickerThrows := false,
    infoFetch := .ok { shortName := none, regularMarketPrice := some 100, currentPrice := none },
    calendarFetch := .ok none, earningsFetch := .ok none,
    dividendsFetch := .ok [(5, 0)] }

/-- A batch outcome list whose only call raised. -/
def emptyOutcomes : List (Except String (List (String × String))) :=
  [.error "boom"]

/-- A batch outcome list with one successful record. -/
def oneOutcome : List (Except String (List (String × String))) :=
  [.ok (fallbackRecord "A")]

/-! Lookup lemmas on the assembled record. -/

/-- Looking up "Stock Symbol" in the assembled record. -/
theorem lookup_symbol_eq (env : Env) (sym : String) :
    (recordFields env sym).lookup "Stock Symbol" = some sym := by
  simp [recordFields, List.lookup]

/-- Looking up "Company Name" in the assembled record. -/
theorem lookup_name_eq (env : Env) (sym : String) :
    (recordFields env sym).lookup "Company Name" = some (companyName env) := by
  simp [recordFields, List.lookup]

/-- Looking up "Next Earnings Report Date" in the assembled record. -/
theorem lookup_earnings_eq (env : Env) (sym : String) :
    (recordFields env sym).lookup "Next Earnings Report Date" =
      some (earningsField env) := by
  simp [recordFields, List.lookup]

/-- Looking up "Dividend Offered" in the assembled record. -/
theorem lookup_offered_eq (env : Env) (sym : String) :
    (recordFields env sym).lookup "Dividend Offered" =
      some (dividendOffered env) := by
  simp [recordFields, List.lookup]

/-- Looking up "Ex-Dividend Date" in the assembled record. -/
theorem lookup_exdiv_eq (env : Env) (sym : String) :
    (recordFields env sym).lookup "Ex-Dividend Date" =
      some (exDivField env) := by
  simp [recordFields, List.lookup]

/-- Looking up "Annual Dividend Yield" in the assembled record. -/
theorem lookup_yield_eq (env : Env) (sym : String) :
    (recordFields env sym).lookup "Annual Dividend Yield" =
      some (yieldField env) := by
  simp [recordFields, List.lookup]

/-! Claim theorems. -/

/-- C1: on the chronologically ordered (oldest-first) 5-payment history
with amounts 1,0,0,0,0, line 78's `head(4)` sums the four OLDEST
payments and yields 1, while the four most recent (latest-dated)
payments sum to 0 — the code computes the head, not the claimed
trailing ("recent") rate. -/
theorem c1_trailing_rate_head_not_recent :
    annualDivRate [(0, 1), (1, 0), (2, 0), (3, 0), (4, 0)] = 1 ∧
    divSum ([((0:Int), (1:Rat)), (1, 0), (2, 0), (3, 0), (4, 0)].drop 1) = 0 ∧
    (1 : Rat) ≠ 0 := by
  refine ⟨?_, ?_, ?_⟩
  · norm_num [annualDivRate, divSum]
  · norm_num [divSum]
  · norm_num

/-- C2 counterexample: with both price fields present (regular market
price 100, current price 50), line 79 resolves the latest price to the
regular market price, not the "current price" the claim says is
primary. -/
theorem c2_price_priority_counterexample :
    latestPrice c2Info = some 100 ∧
    c2Info.currentPrice = some 50 ∧
    some (100 : Rat) ≠ some (50 : Rat) := by
  refine ⟨rfl, rfl, by decide⟩

/-- C2 (amended): the latest price used for the yield is the profile's
"regular market price" field, with "current price" used only as a
fallback when "regular market price" is absent; if neither is available
the yield is left unset and the output field is "N/A". -/
theorem c2_price_priority_amended (env : Env) (sym : String) :
    (∀ p, (getInfo env).regularMarketPrice = some p →
        latestPrice (getInfo env) = some p) ∧
    ((getInfo env).regularMarketPrice = none →
        latestPrice (getInfo env) = (getInfo env).currentPrice) ∧
    (latestPrice (getInfo env) = none → env.tickerThrows = false →
        annualDividendYield env = none ∧
        (get_stock_info env sym).lookup "Annual Dividend Yield" = some "N/A") := by
  refine ⟨?_, ?_, ?_⟩
  · intro p hp
    simp [latestPrice, hp]
  · intro hp
    simp [latestPrice, hp]
  · intro hp ht
    have hy : annualDividendYield env = none := by
      unfold annualDividendYield
      cases hdf : env.dividendsFetch with
      | error e => rfl
      | ok ds =>
        by_cases he : ds.isEmpty
        · simp [he]
        · simp [he, hp]
    refine ⟨hy, ?_⟩
    simp [get_stock_info, ht, lookup_yield_eq, yieldField, hy]

/-- C2 witness: the amended price rule evaluated on a profile with both
fields (takes 100) and on an empty profile with dividends (yield "N/A"). -/
theorem c2_price_priority_witness :
    latestPrice (getInfo c2EnvA) = some 100 ∧
    latestPrice (getInfo c2EnvB) = (getInfo c2EnvB).currentPrice ∧
    (get_stock_info c2EnvB "X").lookup "Annual Dividend Yield" = some "N/A" :=
  ⟨(c2_price_priority_amended c2EnvA "X").1 100 rfl,
   (c2_price_priority_amended c2EnvB "X").2.1 rfl,
   ((c2_price_priority_amended c2EnvB "X").2.2 rfl rfl).2⟩

/-- C3 counterexample: when an unexpected error escapes the inner
handlers (here `yf.Ticker` itself raising), the top-level handler of
lines 125-134 sets "Dividend Offered" to "N/A" — neither "Yes" nor
"No". -/
theorem c3_dividend_offered_counterexample :
    (get_stock_info c3Env "AAPL").lookup "Dividend Offered" = some "N/A" ∧
    "N/A" ≠ "Yes" ∧ "N/A" ≠ "No" := by
  refine ⟨by decide, by decide, by decide⟩

/-- C3 (amended): whenever no unexpected error escapes the inner
handlers, the "Dividend Offered" field is exactly "Yes" or "No"; when
one escapes, the top-level handler emits "N/A" instead. -/
theorem c3_dividend_offered_amended (env : Env) (sym : String)
    (h : env.tickerThrows = false) :
    (get_stock_info env sym).lookup "Dividend Offered" = some "Yes" ∨
    (get_stock_info env sym).lookup "Dividend Offered" = some "No" := by
  have hl : (get_stock_info env sym).lookup "Dividend Offered" =
      some (dividendOffered env) := by
    simp [get_stock_info, h, lookup_offered_eq]
  rw [hl]
  unfold dividendOffered
  cases env.dividendsFetch with
  | error e => exact Or.inr rfl
  | ok ds =>
    by_cases he : ds.isEmpty
    · exact Or.inr (by simp [he])
    · exact Or.inl (by simp [he])

/-- C3 witness: the amended dichotomy evaluated on the benign
environment. -/
theorem c3_dividend_offered_witness :
    (get_stock_info okEnv "A").lookup "Dividend Offered" = some "Yes" ∨
    (get_stock_info okEnv "A").lookup "Dividend Offered" = some "No" :=
  c3_dividend_offered_amended okEnv "A" rfl

/-- C4: for every upstream behaviour (the embedding is total, so the call
never raises), the returned record has exactly the six required keys in
order, and "Stock Symbol" carries the input symbol. -/
theorem c4_record_shape (env : Env) (sym : String) :
    (get_stock_info env sym).map Prod.fst =
      ["Stock Symbol", "Company Name", "Next Earnings Report Date",
       "Dividend Offered", "Ex-Dividend Date", "Annual Dividend Yield"] ∧
    (get_stock_info env sym).lookup "Stock Symbol" = some sym := by
  unfold get_stock_info
  cases h : env.tickerThrows with
  | true => exact ⟨rfl, by simp [fallbackRecord, List.lookup]⟩
  | false => exact ⟨rfl, lookup_symbol_eq env sym⟩

/-- C5: a resolved earnings date or a raw ex-dividend date lying strictly
more than 180 days after now on the common absolute axis (naive values
treated as NY-local and both sides converted before comparison) is reset
to unset and its output field is "N/A". -/
theorem c5_future_date_filter (env : Env) (sym : String)
    (h : env.tickerThrows = false) :
    (∀ e, resolveEarnings env = some e →
        maxFutureUTC env < e.toUTC env.nyOff →
        filteredEarnings env = none ∧
        (get_stock_info env sym).lookup "Next Earnings Report Date" = some "N/A") ∧
    (∀ d, exDivDateRaw env = some d →
        maxFutureUTC env < exDivAbs env d →
        filteredExDiv env = none ∧
        (get_stock_info env sym).lookup "Ex-Dividend Date" = some "N/A") := by
  constructor
  · intro e hre hfar
    have hf : filteredEarnings env = none := by
      simp [filteredEarnings, hre, hfar]
    refine ⟨hf, ?_⟩
    simp [get_stock_info, h, lookup_earnings_eq, earningsField, hf]
  · intro d hrd hfar
    have hf : filteredExDiv env = none := by
      simp [filteredExDiv, hrd, hfar]
    refine ⟨hf, ?_⟩
    simp [get_stock_info, h, lookup_exdiv_eq, exDivField, hf]

/-- C5 witness: the filter evaluated on an environment whose earnings
timestamp (minute 1000000) and ex-dividend day (day 400) both lie far
beyond now + 180 days. -/
theorem c5_future_date_filter_witness :
    (filteredEarnings c5Env = none ∧
     (get_stock_info c5Env "Y").lookup "Next Earnings Report Date" = some "N/A") ∧
    (filteredExDiv c5Env = none ∧
     (get_stock_info c5Env "Y").lookup "Ex-Dividend Date" = some "N/A") :=
  ⟨(c5_future_date_filter c5Env "Y" rfl).1 (TS.aware 1000000) rfl (by decide),
   (c5_future_date_filter c5Env "Y" rfl).2 400 rfl (by decide)⟩

/-- C6 counterexample: with the calendar source yielding nothing and the
time-indexed source listing the future dates 200 then 100 (both strictly
after now = 0), line 65 takes `future_dates.index[0]` = 200, not the
earliest future date 100. -/
theorem c6_earliest_counterexample :
    resolveEarnings c6Env = some (TS.aware 200) ∧
    (100 : Int) ∈ futureEarningsDates c6Env { awareIdx := true, dates := [200, 100] } ∧
    (100 : Int) < 200 ∧
    some (TS.aware 200) ≠ some (TS.aware 100) := by
  refine ⟨rfl, by decide, by decide, by decide⟩

/-- C6 (amended): earnings resolution is first-match-wins: a calendar
value is taken as is; otherwise the result is the first-indexed entry of
the strictly-after-now filtered time-indexed source (naive indices
localized to America/New_York before comparison), keeping the index's
naive/aware status — the earliest future date only when the index is
chronologically ascending; if both sources fail or are absent the
earnings date is left unset (the embedding is total, so no error
propagates). -/
theorem c6_resolution_amended (env : Env) :
    (∀ e, env.calendarFetch = .ok (some e) → resolveEarnings env = some e) ∧
    (calendarEarnings env = none →
        (∀ tbl, env.earningsFetch = .ok (some tbl) →
            resolveEarnings env =
              ((futureEarningsDates env tbl).head?).map
                (fun t => if tbl.awareIdx then TS.aware t else TS.naive t)) ∧
        ((env.earningsFetch = .error () ∨ env.earningsFetch = .ok none) →
            resolveEarnings env = none)) := by
  constructor
  · intro e he
    simp [resolveEarnings, calendarEarnings, he]
  · intro hc
    have hres : resolveEarnings env = earningsFromTable env := by
      simp [resolveEarnings, hc]
    constructor
    · intro tbl ht
      rw [hres]
      unfold earningsFromTable
      rw [ht]
      rcases hd : tbl.dates with _ | ⟨a, l⟩
      · simp [futureEarningsDates, hd]
      · have hne : tbl.dates.isEmpty = false := by rw [hd]; rfl
        simp only [hne, Bool.false_eq_true, if_false]
        cases hh : (futureEarningsDates env tbl).head? with
        | none => simp [hh]
        | some t => simp [hh]
    · intro hdisj
      rw [hres]
      rcases hdisj with h | h <;> simp [earningsFromTable, h]

/-- C6 witness: the amended resolution evaluated on a calendar-backed
environment, on the two-future-date table, and on an environment whose
sources both throw. -/
theorem c6_resolution_witness :
    resolveEarnings c6EnvCal = some (TS.naive 7) ∧
    resolveEarnings c6Env = some (TS.aware 200) ∧
    resolveEarnings c8Env = none :=
  ⟨(c6_resolution_amended c6EnvCal).1 (TS.naive 7) rfl,
   (((c6_resolution_amended c6Env).2 rfl).1
      { awareIdx := true, dates := [200, 100] } rfl).trans rfl,
   ((c6_resolution_amended c8Env).2 rfl).2 (Or.inl rfl)⟩

/-- C7 counterexample: in the claim's scenario (profile fetch throws, two
payments of 0.50), the thrown profile leaves no resolvable price, so the
yield field is "N/A" — not the claimed "2.00%". -/
theorem c7_scenario_counterexample :
    (get_stock_info c7Env "X").lookup "Annual Dividend Yield" = some "N/A" ∧
    some "N/A" ≠ some "2.00%" := by
  refine ⟨by decide, by decide⟩

/-- C7 (amended): profile fetch throws and the dividend history has
exactly 2 payments of 0.50 → the annualized rate is 1.00·(4/2) = 2.00,
company name is "N/A", dividend offered is "Yes", and the yield field is
"N/A", because the thrown profile leaves no price to divide by. -/
theorem c7_scenario_amended :
    annualDivRate [(10, (1:Rat)/2), (20, (1:Rat)/2)] = 2 ∧
    (get_stock_info c7Env "X").lookup "Company Name" = some "N/A" ∧
    (get_stock_info c7Env "X").lookup "Dividend Offered" = some "Yes" ∧
    (get_stock_info c7Env "X").lookup "Annual Dividend Yield" = some "N/A" := by
  refine ⟨?_, by decide, by decide, by decide⟩
  norm_num [annualDivRate, divSum]

/-- C8 counterexample: when all three facet fetches throw, the default of
line 25 survives, so "Dividend Offered" is "No" — not the claimed
"N/A". -/
theorem c8_all_throw_counterexample :
    (get_stock_info c8Env "X").lookup "Dividend Offered" = some "No" ∧
    "No" ≠ "N/A" := by
  refine ⟨by decide, by decide⟩

/-- C8 (amended): if all three facet fetches throw (and no unexpected
error reaches the top-level handler), every field is "N/A" except
"Stock Symbol", which is the input symbol, and "Dividend Offered", which
is "No". -/
theorem c8_all_throw_amended (env : Env) (sym : String)
    (h0 : env.tickerThrows = false)
    (h1 : env.infoFetch = .error ())
    (h2 : env.calendarFetch = .error ())
    (h3 : env.earningsFetch = .error ())
    (h4 : env.dividendsFetch = .error ()) :
    get_stock_info env sym =
      [("Stock Symbol", sym), ("Company Name", "N/A"),
       ("Next Earnings Report Date", "N/A"), ("Dividend Offered", "No"),
       ("Ex-Dividend Date", "N/A"), ("Annual Dividend Yield", "N/A")] := by
  simp [get_stock_info, h0, recordFields, companyName, h1, earningsField,
        filteredEarnings, resolveEarnings, calendarEarnings, h2, earningsFromTable,
        h3, dividendOffered, h4, exDivField, filteredExDiv, exDivDateRaw,
        yieldField, annualDividendYield]

/-- C8 witness: the amended record evaluated on the all-throwing
environment. -/
theorem c8_all_throw_witness :
    get_stock_info c8Env "Z" =
      [("Stock Symbol", "Z"), ("Company Name", "N/A"),
       ("Next Earnings Report Date", "N/A"), ("Dividend Offered", "No"),
       ("Ex-Dividend Date", "N/A"), ("Annual Dividend Yield", "N/A")] :=
  c8_all_throw_amended c8Env "Z" rfl rfl rfl rfl rfl

/-- C9: a batch run that collects zero records writes no file and reports
"No data was collected"; a run that collects at least one record writes
exactly the collected records, in processing order. -/
theorem c9_batch_no_data
    (outcomes : List (Except String (List (String × String)))) :
    (collectRecords outcomes = [] →
        (runBatch outcomes).outFile = none ∧
        (runBatch outcomes).message = "No data was collected") ∧
    (collectRecords outcomes ≠ [] →
        (runBatch outcomes).outFile = some (collectRecords outcomes) ∧
        (runBatch outcomes).message = "Data saved to stock_data.csv") := by
  constructor
  · intro h
    simp [runBatch, h]
  · intro h
    have hne : (collectRecords outcomes).isEmpty = false := by
      cases hc : collectRecords outcomes with
      | nil => exact absurd hc h
      | cons a l => rfl
    simp [runBatch, hne]

/-- C9 witness: a run whose only call raised (no file, "no data"
message) and a run with one successful record (file with that record). -/
theorem c9_batch_no_data_witness :
    ((runBatch emptyOutcomes).outFile = none ∧
     (runBatch emptyOutcomes).message = "No data was collected") ∧
    ((runBatch oneOutcome).outFile = some (collectRecords oneOutcome) ∧
     (runBatch oneOutcome).message = "Data saved to stock_data.csv") :=
  ⟨(c9_batch_no_data emptyOutcomes).1 rfl,
   (c9_batch_no_data oneOutcome).2 (by decide)⟩

/-- C10: with a non-empty dividend history and a resolved price, a
resolved price of exactly 0 (Python falsiness treats it as no price, so
the division is never performed) or a computed rate of exactly 0 renders
the yield field "N/A", never "0.00%". -/
theorem c10_zero_yield_na (env : Env) (sym : String)
    (ds : List (Int × Rat)) (p : Rat)
    (h0 : env.tickerThrows = false)
    (hd : env.dividendsFetch = .ok ds)
    (hne : ds ≠ [])
    (hp : latestPrice (getInfo env) = some p)
    (hz : p = 0 ∨ annualDivRate ds = 0) :
    (get_stock_info env sym).lookup "Annual Dividend Yield" = some "N/A" ∧
    some "N/A" ≠ some "0.00%" := by
  have hemp : ds.isEmpty = false := by
    cases ds with
    | nil => exact absurd rfl hne
    | cons a l => rfl
  have hy : yieldField env = "N/A" := by
    unfold yieldField annualDividendYield
    rw [hd]
    simp only [hemp, Bool.false_eq_true, if_false, hp]
    rcases hz with hz | hz
    · simp [hz]
    · by_cases hp0 : p = 0
      · simp [hp0]
      · simp [hp0, hz]
  refine ⟨?_, by decide⟩
  simp [get_stock_info, h0, lookup_yield_eq, hy]

/-- C10 witness: the rule evaluated on a single zero-amount payment with
a resolved price of 100. -/
theorem c10_zero_yield_na_witness :
    (get_stock_info c10Env "X").lookup "Annual Dividend Yield" = some "N/A" ∧
    some "N/A" ≠ some "0.00%" :=
  c10_zero_yield_na c10Env "X" [(5, 0)] 100 rfl rfl (List.cons_ne_nil _ _)
    rfl (Or.inr (by norm_num [annualDivRate, divSum]))
